import Mathlib

/-!
A shallow embedding of the 32-bit ISA simulator: the conversion helpers and
the `CPU32` engine of `isa32_sim.py`, and the line decoder (`parse_operand`,
`execute_instruction`) of `isa32_input.py`, followed by theorems about the
embedded definitions.

Modelling conventions:
* Python's unbounded `int` is `Int`.  Register cells always hold the result
  of `wrap32` (non-negative, below 2^32), so the register file is
  `List Nat`.
* Python list indexing `R[i]` / `R[i] = v` accepts negative indices
  (aliasing from the end of the list) and raises `IndexError` otherwise;
  `pyGet` / `pySet` return `none` in the raising case.
* A raised exception is `none`; `execute_instruction` catches every
  exception per line.  For a register file of length 8, every engine method
  either completes or raises before its first register write (the only
  methods with two writes, `MUL` and `DIV`, write register 7 second, which
  is always in bounds), so the all-or-nothing `Option` semantics coincides
  with Python's partial-mutation-on-exception semantics on this engine.
* Python strings are `List Char`.
-/

/-- `wrap32` of `isa32_sim.py`: `x & 0xFFFFFFFF` on a Python `int` is the
non-negative residue of `x` modulo 2^32. -/
def wrap32 (x : Int) : Nat :=
  (x % 4294967296).toNat

/-- `to_signed32` of `isa32_sim.py`: `x &= 0xFFFFFFFF`, then subtract 2^32
if the masked value is at least 2^31. -/
def to_signed32 (x : Int) : Int :=
  if x % 4294967296 < 2147483648 then x % 4294967296
  else x % 4294967296 - 4294967296

/-- The state of `CPU32`: the 8-element register file `self.R`, plus the
two performance counters. -/
structure CPU where
  R : List Nat
  cycles : Nat
  instruction_count : Nat
deriving DecidableEq, Repr

/-- The `self.CPI` cycle-cost table together with the `.get(op, 1)` default
used by `_count`. -/
def CPI (op : String) : Nat :=
  if op = "MOV" then 1
  else if op = "ADD" then 1
  else if op = "SUB" then 1
  else if op = "MUL" then 3
  else if op = "DIV" then 4
  else 1

/-- `CPU32.__init__`: 8 zeroed registers, both counters zero. -/
def CPU.initial : CPU :=
  { R := List.replicate 8 0, cycles := 0, instruction_count := 0 }

/-- Python list read `R[i]`: non-negative indices index from the front,
indices in `[-len, -1]` alias from the end, anything else raises
(`none`). -/
def pyGet (R : List Nat) (i : Int) : Option Nat :=
  if 0 ≤ i then R[i.toNat]?
  else if -(R.length : Int) ≤ i then R[(i + R.length).toNat]?
  else none

/-- Python list write `R[i] = v`, with the same index rule as `pyGet`. -/
def pySet (R : List Nat) (i : Int) (v : Nat) : Option (List Nat) :=
  if 0 ≤ i then
    if i < (R.length : Int) then some (R.set i.toNat v) else none
  else if -(R.length : Int) ≤ i then some (R.set (i + R.length).toNat v)
  else none

/-- `CPU32._count`: increment the instruction counter and add the opcode's
cycle cost. -/
def CPU.count (c : CPU) (op : String) : CPU :=
  { c with instruction_count := c.instruction_count + 1,
           cycles := c.cycles + CPI op }

/-- `CPU32.MOV`: `self.R[rd] = wrap32(imm)`, then `_count("MOV")`. -/
def CPU.MOV (c : CPU) (rd imm : Int) : Option CPU :=
  (pySet c.R rd (wrap32 imm)).map fun R1 =>
    CPU.count { c with R := R1 } "MOV"

/-- `CPU32.ADD`: `self.R[rd] = wrap32(to_signed32(self.R[rs]) +
to_signed32(imm))`, then `_count("ADD")`. -/
def CPU.ADD (c : CPU) (rd rs imm : Int) : Option CPU :=
  (pyGet c.R rs).bind fun v =>
    (pySet c.R rd (wrap32 (to_signed32 (v : Int) + to_signed32 imm))).map
      fun R1 => CPU.count { c with R := R1 } "ADD"

/-- `CPU32.SUB`: `self.R[rd] = wrap32(to_signed32(self.R[rs]) -
to_signed32(imm))`, then `_count("SUB")`. -/
def CPU.SUB (c : CPU) (rd rs imm : Int) : Option CPU :=
  (pyGet c.R rs).bind fun v =>
    (pySet c.R rd (wrap32 (to_signed32 (v : Int) - to_signed32 imm))).map
      fun R1 => CPU.count { c with R := R1 } "SUB"

/-- `CPU32.MUL`: read both operands first, form the exact product, store
the low word in `rd`, then the high word in register 7.  Python's
`product >> 32` on an `int` is an arithmetic (sign-extending) shift, i.e.
floor division by 2^32 (`Int.fdiv`). -/
def CPU.MUL (c : CPU) (rd rs : Int) : Option CPU :=
  (pyGet c.R rd).bind fun ua =>
    (pyGet c.R rs).bind fun ub =>
      (pySet c.R rd
          (wrap32 (to_signed32 (ua : Int) * to_signed32 (ub : Int)))).bind
        fun R1 =>
          (pySet R1 7
              (wrap32 (Int.fdiv (to_signed32 (ua : Int) * to_signed32 (ub : Int))
                4294967296))).map
            fun R2 => CPU.count { c with R := R2 } "MUL"

/-- `CPU32.DIV`: on a zero divisor print a warning and return with no
mutation and no counting; otherwise `quotient = int(dividend / divisor)`
and `remainder = dividend % divisor`.

For 32-bit signed operands (`|dividend|, |divisor| ≤ 2^31`) the float
division is exact enough that `int(dividend / divisor)` always equals the
quotient truncated toward zero (`Int.tdiv`): both operands are exactly
representable as doubles, IEEE division is correctly rounded, and the true
quotient is never within half an ulp of a different integer because that
would require `|quotient| * |divisor| > 2^53`.

Python's `%` is floored modulo — the result takes the sign of the
DIVISOR — which is `Int.fmod`. -/
def CPU.DIV (c : CPU) (rd rs : Int) : Option CPU :=
  (pyGet c.R rd).bind fun ud =>
    (pyGet c.R rs).bind fun uv =>
      if to_signed32 (uv : Int) = 0 then
        some c
      else
        (pySet c.R rd
            (wrap32 (Int.tdiv (to_signed32 (ud : Int)) (to_signed32 (uv : Int))))).bind
          fun R1 =>
            (pySet R1 7
                (wrap32 (Int.fmod (to_signed32 (ud : Int)) (to_signed32 (uv : Int))))).map
              fun R2 => CPU.count { c with R := R2 } "DIV"

/-- An engine operation with fully resolved operands, as dispatched by the
per-line driver. -/
inductive Op where
  | mov (rd imm : Int)
  | add (rd rs imm : Int)
  | sub (rd rs imm : Int)
  | mul (rd rs : Int)
  | div (rd rs : Int)
deriving DecidableEq, Repr

/-- One driver step: run the engine operation; a raised engine exception is
caught by the per-line handler of `execute_instruction`, leaving the state
as it was (all-or-nothing, see the module comment). -/
def CPU.step (c : CPU) (op : Op) : CPU :=
  match op with
  | Op.mov rd imm => (CPU.MOV c rd imm).getD c
  | Op.add rd rs imm => (CPU.ADD c rd rs imm).getD c
  | Op.sub rd rs imm => (CPU.SUB c rd rs imm).getD c
  | Op.mul rd rs => (CPU.MUL c rd rs).getD c
  | Op.div rd rs => (CPU.DIV c rd rs).getD c

/-- Run a finite sequence of engine operations from the freshly constructed
engine. -/
def runProgram (ops : List Op) : CPU :=
  List.foldl CPU.step CPU.initial ops

/-- Python `str.isdigit()` on the ASCII tokens this decoder handles:
non-empty and all digits. -/
def pyIsDigit (t : List Char) : Bool :=
  !t.isEmpty && t.all Char.isDigit

/-- Decimal value of a digit string. -/
def digitsToNat (t : List Char) : Nat :=
  t.foldl (fun a c => a * 10 + (c.toNat - 48)) 0

/-- Python `int(t)` on an already-stripped token: an optional sign followed
by at least one decimal digit; anything else raises `ValueError`
(`none`). -/
def pyInt (t : List Char) : Option Int :=
  match t with
  | '-' :: rest => if pyIsDigit rest then some (-(digitsToNat rest : Int)) else none
  | '+' :: rest => if pyIsDigit rest then some ((digitsToNat rest : Int)) else none
  | _ => if pyIsDigit t then some ((digitsToNat t : Int)) else none

/-- Python `str.strip()`. -/
def pyStrip (t : List Char) : List Char :=
  ((t.dropWhile Char.isWhitespace).reverse.dropWhile Char.isWhitespace).reverse

/-- Python `str.split()` with no argument: split on whitespace runs,
discarding empty pieces. -/
def pySplit (t : List Char) : List (List Char) :=
  (List.splitOnP Char.isWhitespace t).filter (fun p => !p.isEmpty)

/-- `parse_operand` of `isa32_input.py`: strip and lowercase; a token
`r<digits>` yields `(index, true)`; otherwise `int(...)` yields
`(value, false)` or raises. -/
def parse_operand (s : List Char) : Option (Int × Bool) :=
  let t := (pyStrip s).map Char.toLower
  match t with
  | 'r' :: rest =>
    if pyIsDigit rest then some ((digitsToNat rest : Int), true)
    else (pyInt t).map fun v => (v, false)
  | _ => (pyInt t).map fun v => (v, false)

/-- `.replace(',', '')` as applied to operand tokens. -/
def stripCommas (t : List Char) : List Char :=
  t.filter (fun c => !(c == ','))

/-- `parts[0].startswith(('#', ';'))`. -/
def isCommentStart (t : List Char) : Bool :=
  match t with
  | [] => false
  | c :: _ => c == '#' || c == ';'

/-- How `execute_instruction` disposed of a line. -/
inductive LineOutcome where
  | noop
  | ok
  | errored
  | exitSignal
  | unknownOp
deriving DecidableEq, Repr

/-- Result of one line: the resulting engine state, the disposition, and
whether control reached one of the engine method calls (`cpu.MOV(...)`,
`cpu.ADD(...)`, ...) with all operands resolved. -/
structure ExecResult where
  cpu : CPU
  outcome : LineOutcome
  invoked : Bool
deriving DecidableEq, Repr

/-- An engine method call site inside the `try` block: `invoked` is true;
a raised engine exception is caught by the per-line `except` handler
(printing an error), with the state unchanged (all-or-nothing, see the
module comment). -/
def engineStep (cpu : CPU) (r : Option CPU) : ExecResult :=
  match r with
  | some c => { cpu := c, outcome := LineOutcome.ok, invoked := true }
  | none => { cpu := cpu, outcome := LineOutcome.errored, invoked := true }

/-- An exception raised while resolving operands (a missing `parts[i]`, or
`ValueError` from `parse_operand`), caught by the same `except` handler
before any engine method call. -/
def parseFail (cpu : CPU) : ExecResult :=
  { cpu := cpu, outcome := LineOutcome.errored, invoked := false }

/-- The MOV branch of `execute_instruction`: `rd` from `parts[1]` with the
commas stripped, `imm` from `parts[2]`, then the engine call
`cpu.MOV(rd, imm)`.  A missing `parts[i]` or a `parse_operand` failure
raises before the engine call (`parseFail`). -/
def opMOV (cpu : CPU) (parts : List (List Char)) : ExecResult :=
  match (parts[1]?).bind (fun t => parse_operand (stripCommas t)) with
  | none => parseFail cpu
  | some (rd, _) =>
    match (parts[2]?).bind parse_operand with
    | none => parseFail cpu
    | some (imm, _) => engineStep cpu (CPU.MOV cpu rd imm)

/-- The ADD branch: `rd` from `parts[1]`, `rs` from `parts[2]` (commas
stripped on both), `imm` from `parts[3]`, then `cpu.ADD(rd, rs, imm)`. -/
def opADD (cpu : CPU) (parts : List (List Char)) : ExecResult :=
  match (parts[1]?).bind (fun t => parse_operand (stripCommas t)) with
  | none => parseFail cpu
  | some (rd, _) =>
    match (parts[2]?).bind (fun t => parse_operand (stripCommas t)) with
    | none => parseFail cpu
    | some (rs, _) =>
      match (parts[3]?).bind parse_operand with
      | none => parseFail cpu
      | some (imm, _) => engineStep cpu (CPU.ADD cpu rd rs imm)

/-- The SUB branch, identical to ADD except for the engine call. -/
def opSUB (cpu : CPU) (parts : List (List Char)) : ExecResult :=
  match (parts[1]?).bind (fun t => parse_operand (stripCommas t)) with
  | none => parseFail cpu
  | some (rd, _) =>
    match (parts[2]?).bind (fun t => parse_operand (stripCommas t)) with
    | none => parseFail cpu
    | some (rs, _) =>
      match (parts[3]?).bind parse_operand with
      | none => parseFail cpu
      | some (imm, _) => engineStep cpu (CPU.SUB cpu rd rs imm)

/-- The MUL branch: `rd` from `parts[1]` (commas stripped), `rs` from
`parts[2]`, then `cpu.MUL(rd, rs)`. -/
def opMUL (cpu : CPU) (parts : List (List Char)) : ExecResult :=
  match (parts[1]?).bind (fun t => parse_operand (stripCommas t)) with
  | none => parseFail cpu
  | some (rd, _) =>
    match (parts[2]?).bind parse_operand with
    | none => parseFail cpu
    | some (rs, _) => engineStep cpu (CPU.MUL cpu rd rs)

/-- The DIV branch, identical to MUL except for the engine call. -/
def opDIV (cpu : CPU) (parts : List (List Char)) : ExecResult :=
  match (parts[1]?).bind (fun t => parse_operand (stripCommas t)) with
  | none => parseFail cpu
  | some (rd, _) =>
    match (parts[2]?).bind parse_operand with
    | none => parseFail cpu
    | some (rs, _) => engineStep cpu (CPU.DIV cpu rd rs)

/-- The body of `execute_instruction` after `parts = line.strip().split()`:
dispatch on the upper-cased mnemonic (`op = parts[0].upper()`, inlined
below), resolving operands in source order with the comma strip applied
exactly where the source applies `.replace(',', '')`. -/
def execute_instruction_parts (cpu : CPU) (parts : List (List Char)) : ExecResult :=
  match parts with
  | [] => { cpu := cpu, outcome := LineOutcome.noop, invoked := false }
  | p0 :: _ =>
    if isCommentStart p0 then
      { cpu := cpu, outcome := LineOutcome.noop, invoked := false }
    else if p0.map Char.toUpper = "MOV".toList then opMOV cpu parts
    else if p0.map Char.toUpper = "ADD".toList then opADD cpu parts
    else if p0.map Char.toUpper = "SUB".toList then opSUB cpu parts
    else if p0.map Char.toUpper = "MUL".toList then opMUL cpu parts
    else if p0.map Char.toUpper = "DIV".toList then opDIV cpu parts
    else if p0.map Char.toUpper = "EXIT".toList then
      { cpu := cpu, outcome := LineOutcome.exitSignal, invoked := false }
    else
      { cpu := cpu, outcome := LineOutcome.unknownOp, invoked := false }

/-- `execute_instruction` of `isa32_input.py` on one raw line. -/
def execute_instruction (cpu : CPU) (line : List Char) : ExecResult :=
  execute_instruction_parts cpu (pySplit (pyStrip line))

/-- Pre-state of the DIV divergence example: register 1 holds the storage
form of -7, register 2 holds 2 (the state reached by `MOV(1, -7);
MOV(2, 2)` with the counters reset for readability). -/
def divExamplePre : CPU :=
  { R := [0, 4294967289, 2, 0, 0, 0, 0, 0], cycles := 0, instruction_count := 0 }

/-- Pre-state of the DIV-by-zero example, as reached by `MOV(1, 5);
MOV(2, 0)` from the fresh engine. -/
def divZeroPre : CPU :=
  { R := [0, 5, 0, 0, 0, 0, 0, 0], cycles := 2, instruction_count := 2 }

/-- Pre-state of the MUL example, as reached by `MOV(1, 2^31 - 1);
MOV(2, 2)` from the fresh engine. -/
def mulExamplePre : CPU :=
  { R := [0, 2147483647, 2, 0, 0, 0, 0, 0], cycles := 2, instruction_count := 2 }

/-- Pre-state for the ADD/SUB counterexample: register 1 holds 5, register
2 holds 0. -/
def addSubPre : CPU :=
  { R := [0, 5, 0, 0, 0, 0, 0, 0], cycles := 0, instruction_count := 0 }

/-! ### Arithmetic helper lemmas -/

theorem wrap32_lt (x : Int) : wrap32 x < 4294967296 := by
  unfold wrap32
  omega

theorem to_signed32_emod (x : Int) :
    to_signed32 x % 4294967296 = x % 4294967296 := by
  simp only [to_signed32]
  split <;> omega

theorem wrap32_congr {x y : Int}
    (h : x % 4294967296 = y % 4294967296) :
    wrap32 x = wrap32 y := by
  unfold wrap32
  omega

theorem wrap32_to_signed32 {v : Nat} (h : v < 4294967296) :
    wrap32 (to_signed32 (v : Int)) = v := by
  have h1 := to_signed32_emod (v : Int)
  unfold wrap32
  omega

theorem to_signed32_wrap32_emod (z : Int) :
    to_signed32 ((wrap32 z : Nat) : Int) % 4294967296 = z % 4294967296 := by
  have h1 := to_signed32_emod ((wrap32 z : Nat) : Int)
  unfold wrap32 at *
  omega

/-! ### Python list access on canonical natural indices -/

theorem pyGet_nat (R : List Nat) (i : Nat) : pyGet R (i : Int) = R[i]? := by
  unfold pyGet
  simp

theorem pySet_nat (R : List Nat) (i : Nat) (v : Nat) (h : i < R.length) :
    pySet R (i : Int) v = some (R.set i v) := by
  unfold pySet
  have h0 : (0 : Int) ≤ (i : Int) := Int.natCast_nonneg i
  rw [if_pos h0, if_pos (by exact_mod_cast h)]
  simp


/-! ### Structure projections and per-opcode equation lemmas -/

theorem count_R (c : CPU) (op : String) : (CPU.count c op).R = c.R := rfl

theorem mk_R (c : CPU) (X : List Nat) : ({ c with R := X } : CPU).R = X := rfl

theorem getElem?_of_lt (R : List Nat) (i : Nat) (h : i < R.length) :
    ∃ u, R[i]? = some u :=
  ⟨R.get ⟨i, h⟩, by rw [List.getElem?_eq_getElem h]; rfl⟩

theorem pySet7_nat (R : List Nat) (v : Nat) (h : 7 < R.length) :
    pySet R 7 v = some (R.set 7 v) :=
  pySet_nat R 7 v h

theorem MOV_eq (c : CPU) (rd : Nat) (imm : Int) (h : rd < c.R.length) :
    CPU.MOV c (rd : Int) imm =
      some (CPU.count { c with R := c.R.set rd (wrap32 imm) } "MOV") := by
  unfold CPU.MOV
  rw [pySet_nat _ _ _ h, Option.map_some']

theorem ADD_eq (c : CPU) (rd rs : Nat) (imm : Int) (v : Nat)
    (hrd : rd < c.R.length) (hv : c.R[rs]? = some v) :
    CPU.ADD c (rd : Int) (rs : Int) imm =
      some (CPU.count
        { c with R := c.R.set rd (wrap32 (to_signed32 (v : Int) + to_signed32 imm)) }
        "ADD") := by
  unfold CPU.ADD
  rw [pyGet_nat, hv, Option.some_bind, pySet_nat _ _ _ hrd, Option.map_some']

theorem SUB_eq (c : CPU) (rd rs : Nat) (imm : Int) (v : Nat)
    (hrd : rd < c.R.length) (hv : c.R[rs]? = some v) :
    CPU.SUB c (rd : Int) (rs : Int) imm =
      some (CPU.count
        { c with R := c.R.set rd (wrap32 (to_signed32 (v : Int) - to_signed32 imm)) }
        "SUB") := by
  unfold CPU.SUB
  rw [pyGet_nat, hv, Option.some_bind, pySet_nat _ _ _ hrd, Option.map_some']

theorem MUL_eq (c : CPU) (rd rs : Nat) (ua ub : Nat)
    (h8 : c.R.length = 8) (hrd : rd < 8)
    (ha : c.R[rd]? = some ua) (hb : c.R[rs]? = some ub) :
    CPU.MUL c (rd : Int) (rs : Int) =
      some (CPU.count
        { c with R :=
            ((c.R.set rd
                (wrap32 (to_signed32 (ua : Int) * to_signed32 (ub : Int)))).set 7
              (wrap32 (Int.fdiv (to_signed32 (ua : Int) * to_signed32 (ub : Int))
                4294967296))) }
        "MUL") := by
  unfold CPU.MUL
  rw [pyGet_nat, pyGet_nat, ha, hb, Option.some_bind, Option.some_bind,
    pySet_nat _ _ _ (by omega), Option.some_bind,
    pySet7_nat _ _ (by rw [List.length_set]; omega), Option.map_some']

theorem DIV_eq (c : CPU) (rd rs : Nat) (ud uv : Nat)
    (h8 : c.R.length = 8) (hrd : rd < 8)
    (hu : c.R[rd]? = some ud) (hv : c.R[rs]? = some uv)
    (hnz : ¬ to_signed32 (uv : Int) = 0) :
    CPU.DIV c (rd : Int) (rs : Int) =
      some (CPU.count
        { c with R :=
            ((c.R.set rd
                (wrap32 (Int.tdiv (to_signed32 (ud : Int)) (to_signed32 (uv : Int))))).set 7
              (wrap32 (Int.fmod (to_signed32 (ud : Int)) (to_signed32 (uv : Int))))) }
        "DIV") := by
  unfold CPU.DIV
  rw [pyGet_nat, pyGet_nat, hu, hv, Option.some_bind, Option.some_bind, if_neg hnz,
    pySet_nat _ _ _ (by omega), Option.some_bind,
    pySet7_nat _ _ (by rw [List.length_set]; omega), Option.map_some']

/-! ### C5: storage/signed-view round trip -/

/-- C5: for every integer `x` with `0 ≤ x ≤ 2^32 - 1`,
`wrap32 (to_signed32 x) = x`: `wrap32` composed with the `to_signed32` view
is the identity on canonical 32-bit unsigned storage values. -/
theorem wrap_signed_roundtrip (x : Nat) (h : x ≤ 4294967295) :
    wrap32 (to_signed32 (x : Int)) = x :=
  wrap32_to_signed32 (by omega)

/-- Witness for C5 at the storage value 3000000000 (whose signed view is
negative). -/
theorem wrap_signed_roundtrip_witness :
    ((3000000000 : Nat) ≤ 4294967295) ∧
      wrap32 (to_signed32 ((3000000000 : Nat) : Int)) = 3000000000 :=
  ⟨by norm_num, wrap_signed_roundtrip 3000000000 (by norm_num)⟩

/-! ### C1: DIV stores the floored remainder, not the truncating one -/

/-- C1: the claim (and the spec's own DIV test) requires the remainder of
truncating division, which takes the DIVIDEND's sign and satisfies
`quotient * divisor + remainder = dividend`; with `signed(R[rd]) = -7` and
`signed(R[rs]) = 2` register 7 would hold the storage form of `-1`.  The
code computes the quotient by truncation (`int(dividend / divisor)`) but
the remainder with Python's floored `%`, which takes the DIVISOR's sign:
from `divExamplePre` (`signed(R[1]) = -7`, `R[2] = 2`), `DIV(1, 2)` stores
`wrap32 (-3)` in register 1 but plain `1` in register 7, whose signed view
is `1`, not `-1`, and `quotient * divisor + remainder = -5 ≠ -7`. -/
theorem div_remainder_sign_divergence :
    CPU.DIV divExamplePre 1 2 =
      some { R := [0, 4294967293, 2, 0, 0, 0, 0, 1],
             cycles := 4, instruction_count := 1 } ∧
    to_signed32 ((4294967289 : Nat) : Int) = -7 ∧
    wrap32 (-3) = 4294967293 ∧
    to_signed32 ((1 : Nat) : Int) = 1 ∧
    ¬ to_signed32 ((1 : Nat) : Int) = -1 ∧
    Int.tdiv (-7) 2 = -3 ∧
    ¬ ((-3 : Int) * 2 + 1 = -7) := by
  decide

/-! ### C2: division by zero is a soft skip -/

/-- C2: if the signed view of `R[rs]` is zero, `DIV(rd, rs)` returns the
state completely unchanged — every register (including `rd` and register 7)
and both performance counters keep their pre-call values — and the call
completes normally with no count recorded (the division-by-zero warning is
only printed). -/
theorem div_by_zero_soft_skip (c : CPU) (rd rs : Nat) (uv : Nat)
    (h8 : c.R.length = 8) (hrd : rd < 8) (hrs : rs < 8)
    (hv : c.R[rs]? = some uv) (hz : to_signed32 (uv : Int) = 0) :
    CPU.DIV c (rd : Int) (rs : Int) = some c := by
  obtain ⟨ud, hud⟩ := getElem?_of_lt c.R rd (by omega)
  unfold CPU.DIV
  rw [pyGet_nat, pyGet_nat, hud, hv, Option.some_bind, Option.some_bind, hz]
  rw [if_pos rfl]

/-- Witness for C2 at the spec's example: `MOV(1, 5); MOV(2, 0)` and then
`DIV(1, 2)`. -/
theorem div_by_zero_soft_skip_witness :
    (divZeroPre.R.length = 8 ∧ divZeroPre.R[2]? = some 0 ∧
      to_signed32 ((0 : Nat) : Int) = 0) ∧
    CPU.DIV divZeroPre ((1 : Nat) : Int) ((2 : Nat) : Int) = some divZeroPre :=
  ⟨⟨by decide, by decide, by decide⟩,
    div_by_zero_soft_skip divZeroPre 1 2 0 (by decide) (by decide) (by decide)
      (by decide) (by decide)⟩

/-! ### C3: MUL stores the exact full-precision product, high word last -/

/-- C3: `MUL(rd, rs)` computes the exact full-precision product `p` of the
pre-state signed values `to_signed32 R[rd]` and `to_signed32 R[rs]`, stores
`wrap32 p` into `R[rd]` and then `wrap32 (p >> 32)` (arithmetic shift,
modelled as `Int.fdiv p 2^32`) into register 7.  This holds for every pair
of indices, including `rd = 7` or `rs = 7`; the value of register 7 after
the call is unconditionally the high word (the high write is last, hence
authoritative), while the low word survives in `R[rd]` whenever
`rd ≠ 7`. -/
theorem mul_full_product (c : CPU) (rd rs : Nat) (ua ub : Nat)
    (h8 : c.R.length = 8) (hrd : rd < 8) (hrs : rs < 8)
    (ha : c.R[rd]? = some ua) (hb : c.R[rs]? = some ub) :
    ∃ c', CPU.MUL c (rd : Int) (rs : Int) = some c' ∧
      c'.R[7]? = some (wrap32 (Int.fdiv (to_signed32 (ua : Int) * to_signed32 (ub : Int))
        4294967296)) ∧
      (rd ≠ 7 →
        c'.R[rd]? = some (wrap32 (to_signed32 (ua : Int) * to_signed32 (ub : Int)))) := by
  refine ⟨_, MUL_eq c rd rs ua ub h8 hrd ha hb, ?_, ?_⟩
  · rw [count_R, mk_R, List.getElem?_set, if_pos rfl,
      if_pos (by rw [List.length_set]; omega)]
  · intro h7
    rw [count_R, mk_R, List.getElem?_set, if_neg (by omega : ¬ (7 = rd)),
      List.getElem?_set, if_pos rfl, if_pos (by omega)]

/-- Witness for C3 at the spec's example: `MOV(1, 2^31 - 1); MOV(2, 2)` and
then `MUL(1, 2)`. -/
theorem mul_full_product_witness :
    (mulExamplePre.R.length = 8 ∧ mulExamplePre.R[1]? = some 2147483647 ∧
      mulExamplePre.R[2]? = some 2) ∧
    ∃ c', CPU.MUL mulExamplePre ((1 : Nat) : Int) ((2 : Nat) : Int) = some c' ∧
      c'.R[7]? = some (wrap32 (Int.fdiv
        (to_signed32 ((2147483647 : Nat) : Int) * to_signed32 ((2 : Nat) : Int))
        4294967296)) ∧
      ((1 : Nat) ≠ 7 →
        c'.R[1]? = some (wrap32
          (to_signed32 ((2147483647 : Nat) : Int) * to_signed32 ((2 : Nat) : Int)))) :=
  ⟨⟨by decide, by decide, by decide⟩,
    mul_full_product mulExamplePre 1 2 2147483647 2 (by decide) (by decide)
      (by decide) (by decide) (by decide)⟩

/-! ### C4: the ADD-then-SUB inverse law -/

/-- C4 counterexample: the inverse law fails when `rs ≠ rd`.  From
`addSubPre` (`R[1] = 5`, `R[2] = 0`), `ADD(1, 2, 0)` followed by
`SUB(1, 2, 0)` leaves register 1 holding `0`, not its pre-ADD value `5`:
both operations recompute register 1 from register 2 and the immediate, so
the pre-ADD content of register 1 is lost. -/
theorem add_sub_inverse_counterexample :
    addSubPre.R[1]? = some 5 ∧
    (((CPU.ADD addSubPre 1 2 0).bind fun c1 => CPU.SUB c1 1 2 0).map
        fun c2 => c2.R[1]?) = some (some 0) ∧
    ¬ ((0 : Nat) = 5) := by
  decide

/-- C4 amended: the inverse law holds in the aliased form `rs = rd`: on any
well-formed state (8 registers, canonical 32-bit contents), for every `rd`
and every `value`, executing `ADD(rd, rd, value)` and then
`SUB(rd, rd, value)` returns register `rd` to its pre-ADD value under
32-bit wraparound arithmetic. -/
theorem add_sub_inverse_same_rd (c : CPU) (rd : Nat) (imm : Int) (v : Nat)
    (h8 : c.R.length = 8) (hrd : rd < 8) (hv : c.R[rd]? = some v)
    (hlt : v < 4294967296) :
    ∃ c2, ((CPU.ADD c (rd : Int) (rd : Int) imm).bind fun c1 =>
            CPU.SUB c1 (rd : Int) (rd : Int) imm) = some c2 ∧
      c2.R[rd]? = some v := by
  have h1 := ADD_eq c rd rd imm v (by omega) hv
  have hv2 : (CPU.count
      { c with R := c.R.set rd (wrap32 (to_signed32 (v : Int) + to_signed32 imm)) }
      "ADD").R[rd]? = some (wrap32 (to_signed32 (v : Int) + to_signed32 imm)) := by
    rw [count_R, mk_R, List.getElem?_set, if_pos rfl, if_pos (by omega)]
  have hlen2 : rd < (CPU.count
      { c with R := c.R.set rd (wrap32 (to_signed32 (v : Int) + to_signed32 imm)) }
      "ADD").R.length := by
    rw [count_R, mk_R, List.length_set]; omega
  rw [h1, Option.some_bind, SUB_eq _ rd rd imm _ hlen2 hv2]
  refine ⟨_, rfl, ?_⟩
  rw [count_R, mk_R, List.getElem?_set, if_pos rfl, if_pos hlen2]
  have hc := to_signed32_wrap32_emod (to_signed32 (v : Int) + to_signed32 imm)
  have h2 : (to_signed32
        ((wrap32 (to_signed32 (v : Int) + to_signed32 imm) : Nat) : Int)
      - to_signed32 imm) % 4294967296 = to_signed32 (v : Int) % 4294967296 := by
    have h3 := Int.ModEq.sub_right (to_signed32 imm) hc
    rwa [add_sub_cancel_right] at h3
  rw [wrap32_congr h2, wrap32_to_signed32 hlt]

/-- Witness for the amended C4: `ADD(1, 1, 3)` then `SUB(1, 1, 3)` from a
state with `R[1] = 5` restores `R[1] = 5`. -/
theorem add_sub_inverse_same_rd_witness :
    (divZeroPre.R.length = 8 ∧ divZeroPre.R[1]? = some 5 ∧
      (5 : Nat) < 4294967296) ∧
    ∃ c2, ((CPU.ADD divZeroPre ((1 : Nat) : Int) ((1 : Nat) : Int) 3).bind fun c1 =>
            CPU.SUB c1 ((1 : Nat) : Int) ((1 : Nat) : Int) 3) = some c2 ∧
      c2.R[1]? = some 5 :=
  ⟨⟨by decide, by decide, by decide⟩,
    add_sub_inverse_same_rd divZeroPre 1 3 5 (by decide) (by decide) (by decide)
      (by decide)⟩


/-! ### C7: cycle accounting -/

/-- C7: every successfully executed opcode increments the instruction
counter by exactly 1 and the cycle counter by its table cost (MOV = 1,
ADD = 1, SUB = 1, MUL = 3, DIV = 4 — a DIV that is skipped on a zero
divisor counts nothing and is excluded by the nonzero-divisor hypothesis);
consequently `MOV, MOV, MUL, DIV` from the fresh engine, with the DIV
succeeding, yields instruction count 4, total cycles 9, and average
cycles-per-instruction 9 / 4 = 2.25. -/
theorem cycle_accounting :
    (∀ (c : CPU) (rd imm : Int) (c' : CPU), CPU.MOV c rd imm = some c' →
       c'.instruction_count = c.instruction_count + 1 ∧ c'.cycles = c.cycles + 1) ∧
    (∀ (c : CPU) (rd rs imm : Int) (c' : CPU), CPU.ADD c rd rs imm = some c' →
       c'.instruction_count = c.instruction_count + 1 ∧ c'.cycles = c.cycles + 1) ∧
    (∀ (c : CPU) (rd rs imm : Int) (c' : CPU), CPU.SUB c rd rs imm = some c' →
       c'.instruction_count = c.instruction_count + 1 ∧ c'.cycles = c.cycles + 1) ∧
    (∀ (c : CPU) (rd rs : Int) (c' : CPU), CPU.MUL c rd rs = some c' →
       c'.instruction_count = c.instruction_count + 1 ∧ c'.cycles = c.cycles + 3) ∧
    (∀ (c : CPU) (rd rs : Int) (uv : Nat) (c' : CPU), pyGet c.R rs = some uv →
       ¬ to_signed32 (uv : Int) = 0 → CPU.DIV c rd rs = some c' →
       c'.instruction_count = c.instruction_count + 1 ∧ c'.cycles = c.cycles + 4) ∧
    (∃ c4 : CPU,
       ((CPU.MOV CPU.initial 1 6).bind fun c1 => (CPU.MOV c1 2 2).bind fun c2 =>
         (CPU.MUL c2 1 2).bind fun c3 => CPU.DIV c3 1 2) = some c4 ∧
       c4.instruction_count = 4 ∧ c4.cycles = 9 ∧
       (c4.cycles : ℚ) / (c4.instruction_count : ℚ) = 2.25) := by
  refine ⟨?_, ?_, ?_, ?_, ?_, ?_⟩
  · intro c rd imm c' h
    unfold CPU.MOV at h
    rcases hs : pySet c.R rd (wrap32 imm) with _ | R1 <;> rw [hs] at h
    · exact Option.noConfusion h
    · rw [Option.map_some'] at h
      injection h with h'
      subst h'
      exact ⟨rfl, rfl⟩
  · intro c rd rs imm c' h
    unfold CPU.ADD at h
    rcases hg : pyGet c.R rs with _ | v <;> rw [hg] at h
    · exact Option.noConfusion h
    · rw [Option.some_bind] at h
      rcases hs : pySet c.R rd (wrap32 (to_signed32 (v : Int) + to_signed32 imm)) with _ | R1 <;>
        rw [hs] at h
      · exact Option.noConfusion h
      · rw [Option.map_some'] at h
        injection h with h'
        subst h'
        exact ⟨rfl, rfl⟩
  · intro c rd rs imm c' h
    unfold CPU.SUB at h
    rcases hg : pyGet c.R rs with _ | v <;> rw [hg] at h
    · exact Option.noConfusion h
    · rw [Option.some_bind] at h
      rcases hs : pySet c.R rd (wrap32 (to_signed32 (v : Int) - to_signed32 imm)) with _ | R1 <;>
        rw [hs] at h
      · exact Option.noConfusion h
      · rw [Option.map_some'] at h
        injection h with h'
        subst h'
        exact ⟨rfl, rfl⟩
  · intro c rd rs c' h
    unfold CPU.MUL at h
    rcases ha : pyGet c.R rd with _ | ua <;> rw [ha] at h
    · exact Option.noConfusion h
    · rw [Option.some_bind] at h
      rcases hb : pyGet c.R rs with _ | ub <;> rw [hb] at h
      · exact Option.noConfusion h
      · rw [Option.some_bind] at h
        rcases hs1 : pySet c.R rd
            (wrap32 (to_signed32 (ua : Int) * to_signed32 (ub : Int))) with _ | R1 <;>
          rw [hs1] at h
        · exact Option.noConfusion h
        · rw [Option.some_bind] at h
          rcases hs2 : pySet R1 7
              (wrap32 (Int.fdiv (to_signed32 (ua : Int) * to_signed32 (ub : Int))
                4294967296)) with _ | R2 <;>
            rw [hs2] at h
          · exact Option.noConfusion h
          · rw [Option.map_some'] at h
            injection h with h'
            subst h'
            exact ⟨rfl, rfl⟩
  · intro c rd rs uv c' hget hnz h
    unfold CPU.DIV at h
    rcases hu : pyGet c.R rd with _ | ud <;> rw [hu] at h
    · exact Option.noConfusion h
    · rw [Option.some_bind, hget, Option.some_bind, if_neg hnz] at h
      rcases hs1 : pySet c.R rd
          (wrap32 (Int.tdiv (to_signed32 (ud : Int)) (to_signed32 (uv : Int)))) with _ | R1 <;>
        rw [hs1] at h
      · exact Option.noConfusion h
      · rw [Option.some_bind] at h
        rcases hs2 : pySet R1 7
            (wrap32 (Int.fmod (to_signed32 (ud : Int)) (to_signed32 (uv : Int)))) with _ | R2 <;>
          rw [hs2] at h
        · exact Option.noConfusion h
        · rw [Option.map_some'] at h
          injection h with h'
          subst h'
          exact ⟨rfl, rfl⟩
  · refine ⟨{ R := [0, 6, 2, 0, 0, 0, 0, 0], cycles := 9, instruction_count := 4 },
      by decide, rfl, rfl, by norm_num⟩


/-- Witness for C7: the MOV clause at a concrete call on the fresh
engine. -/
theorem cycle_accounting_witness :
    (CPU.MOV CPU.initial 1 5 =
      some { R := [0, 5, 0, 0, 0, 0, 0, 0], cycles := 1, instruction_count := 1 }) ∧
    ({ R := [0, 5, 0, 0, 0, 0, 0, 0], cycles := 1,
        instruction_count := 1 } : CPU).instruction_count =
        CPU.initial.instruction_count + 1 ∧
      ({ R := [0, 5, 0, 0, 0, 0, 0, 0], cycles := 1,
          instruction_count := 1 } : CPU).cycles = CPU.initial.cycles + 1 :=
  ⟨by decide, cycle_accounting.1 CPU.initial 1 5
    { R := [0, 5, 0, 0, 0, 0, 0, 0], cycles := 1, instruction_count := 1 }
    (by decide)⟩

/-! ### C10: frame conditions under aliasing -/

/-- C10: `ADD` and `SUB` change no register other than `rd`; `MUL`, and
`DIV` with a nonzero divisor, change no register other than `rd` and
register 7; and source reads observe the pre-call values even under
aliasing — in particular `MUL(rd, rd)` stores the wrap of the square of the
pre-state `to_signed32 R[rd]` into `rd` (for `rd ≠ 7`, where the low word
is not overwritten by the high-word write). -/
theorem frame_conditions (c : CPU) (rd rs : Nat) (imm : Int) (j : Nat)
    (h8 : c.R.length = 8) (hrd : rd < 8) (hrs : rs < 8) (hj : j < 8) :
    (∀ c', j ≠ rd → CPU.ADD c (rd : Int) (rs : Int) imm = some c' →
       c'.R[j]? = c.R[j]?) ∧
    (∀ c', j ≠ rd → CPU.SUB c (rd : Int) (rs : Int) imm = some c' →
       c'.R[j]? = c.R[j]?) ∧
    (∀ c', j ≠ rd → j ≠ 7 → CPU.MUL c (rd : Int) (rs : Int) = some c' →
       c'.R[j]? = c.R[j]?) ∧
    (∀ c' uv, j ≠ rd → j ≠ 7 → c.R[rs]? = some uv →
       ¬ to_signed32 (uv : Int) = 0 → CPU.DIV c (rd : Int) (rs : Int) = some c' →
       c'.R[j]? = c.R[j]?) ∧
    (∀ c' v, rd ≠ 7 → c.R[rd]? = some v → CPU.MUL c (rd : Int) (rd : Int) = some c' →
       c'.R[rd]? = some (wrap32 (to_signed32 (v : Int) * to_signed32 (v : Int)))) := by
  refine ⟨?_, ?_, ?_, ?_, ?_⟩
  · intro c' hne h
    obtain ⟨v, hv⟩ := getElem?_of_lt c.R rs (by omega)
    rw [ADD_eq c rd rs imm v (by omega) hv] at h
    injection h with h'
    subst h'
    rw [count_R, mk_R, List.getElem?_set, if_neg (by omega : ¬ rd = j)]
  · intro c' hne h
    obtain ⟨v, hv⟩ := getElem?_of_lt c.R rs (by omega)
    rw [SUB_eq c rd rs imm v (by omega) hv] at h
    injection h with h'
    subst h'
    rw [count_R, mk_R, List.getElem?_set, if_neg (by omega : ¬ rd = j)]
  · intro c' hne h7 h
    obtain ⟨ua, ha⟩ := getElem?_of_lt c.R rd (by omega)
    obtain ⟨ub, hb⟩ := getElem?_of_lt c.R rs (by omega)
    rw [MUL_eq c rd rs ua ub h8 hrd ha hb] at h
    injection h with h'
    subst h'
    rw [count_R, mk_R, List.getElem?_set, if_neg (by omega : ¬ 7 = j),
      List.getElem?_set, if_neg (by omega : ¬ rd = j)]
  · intro c' uv hne h7 hv hnz h
    obtain ⟨ud, hu⟩ := getElem?_of_lt c.R rd (by omega)
    rw [DIV_eq c rd rs ud uv h8 hrd hu hv hnz] at h
    injection h with h'
    subst h'
    rw [count_R, mk_R, List.getElem?_set, if_neg (by omega : ¬ 7 = j),
      List.getElem?_set, if_neg (by omega : ¬ rd = j)]
  · intro c' v h7 hv h
    rw [MUL_eq c rd rd v v h8 hrd hv hv] at h
    injection h with h'
    subst h'
    rw [count_R, mk_R, List.getElem?_set, if_neg (by omega : ¬ 7 = rd),
      List.getElem?_set, if_pos rfl, if_pos (by omega)]


/-- Witness for C10: the ADD frame clause at a concrete call — register 0
is untouched by `ADD(1, 2, 3)`. -/
theorem frame_conditions_witness :
    (CPU.ADD divZeroPre ((1 : Nat) : Int) ((2 : Nat) : Int) 3 =
      some { R := [0, 3, 0, 0, 0, 0, 0, 0], cycles := 3, instruction_count := 3 }) ∧
    ({ R := [0, 3, 0, 0, 0, 0, 0, 0], cycles := 3,
        instruction_count := 3 } : CPU).R[0]? = divZeroPre.R[0]? :=
  ⟨by decide,
    (frame_conditions divZeroPre 1 2 3 0 (by decide) (by decide) (by decide)
        (by decide)).1
      { R := [0, 3, 0, 0, 0, 0, 0, 0], cycles := 3, instruction_count := 3 }
      (by decide) (by decide)⟩

/-! ### C6: registers always stay in the 32-bit range -/
theorem pySet_mem_bound {R R' : List Nat} {i : Int} {v : Nat}
    (h : pySet R i v = some R') (hv : v < 4294967296)
    (hR : ∀ w ∈ R, w < 4294967296) : ∀ w ∈ R', w < 4294967296 := by
  unfold pySet at h
  split at h
  · split at h
    · injection h with h'
      subst h'
      intro w hw
      rcases List.mem_or_eq_of_mem_set hw with h1 | h1
      · exact hR w h1
      · omega
    · exact Option.noConfusion h
  · split at h
    · injection h with h'
      subst h'
      intro w hw
      rcases List.mem_or_eq_of_mem_set hw with h1 | h1
      · exact hR w h1
      · omega
    · exact Option.noConfusion h

theorem step_bound (c : CPU) (op : Op) (hR : ∀ w ∈ c.R, w < 4294967296) :
    ∀ w ∈ (CPU.step c op).R, w < 4294967296 := by
  cases op with
  | mov rd imm =>
    rcases h : CPU.MOV c rd imm with _ | c'
    · show ∀ w ∈ ((CPU.MOV c rd imm).getD c).R, w < 4294967296
      rw [h]
      exact hR
    · show ∀ w ∈ ((CPU.MOV c rd imm).getD c).R, w < 4294967296
      rw [h]
      unfold CPU.MOV at h
      rcases hs : pySet c.R rd (wrap32 imm) with _ | R1 <;> rw [hs] at h
      · exact Option.noConfusion h
      · rw [Option.map_some'] at h
        injection h with h'
        subst h'
        exact pySet_mem_bound hs (wrap32_lt _) hR
  | add rd rs imm =>
    rcases h : CPU.ADD c rd rs imm with _ | c'
    · show ∀ w ∈ ((CPU.ADD c rd rs imm).getD c).R, w < 4294967296
      rw [h]
      exact hR
    · show ∀ w ∈ ((CPU.ADD c rd rs imm).getD c).R, w < 4294967296
      rw [h]
      unfold CPU.ADD at h
      rcases hg : pyGet c.R rs with _ | v <;> rw [hg] at h
      · exact Option.noConfusion h
      · rw [Option.some_bind] at h
        rcases hs : pySet c.R rd
            (wrap32 (to_signed32 (v : Int) + to_signed32 imm)) with _ | R1 <;>
          rw [hs] at h
        · exact Option.noConfusion h
        · rw [Option.map_some'] at h
          injection h with h'
          subst h'
          exact pySet_mem_bound hs (wrap32_lt _) hR
  | sub rd rs imm =>
    rcases h : CPU.SUB c rd rs imm with _ | c'
    · show ∀ w ∈ ((CPU.SUB c rd rs imm).getD c).R, w < 4294967296
      rw [h]
      exact hR
    · show ∀ w ∈ ((CPU.SUB c rd rs imm).getD c).R, w < 4294967296
      rw [h]
      unfold CPU.SUB at h
      rcases hg : pyGet c.R rs with _ | v <;> rw [hg] at h
      · exact Option.noConfusion h
      · rw [Option.some_bind] at h
        rcases hs : pySet c.R rd
            (wrap32 (to_signed32 (v : Int) - to_signed32 imm)) with _ | R1 <;>
          rw [hs] at h
        · exact Option.noConfusion h
        · rw [Option.map_some'] at h
          injection h with h'
          subst h'
          exact pySet_mem_bound hs (wrap32_lt _) hR
  | mul rd rs =>
    rcases h : CPU.MUL c rd rs with _ | c'
    · show ∀ w ∈ ((CPU.MUL c rd rs).getD c).R, w < 4294967296
      rw [h]
      exact hR
    · show ∀ w ∈ ((CPU.MUL c rd rs).getD c).R, w < 4294967296
      rw [h]
      unfold CPU.MUL at h
      rcases ha : pyGet c.R rd with _ | ua <;> rw [ha] at h
      · exact Option.noConfusion h
      · rw [Option.some_bind] at h
        rcases hb : pyGet c.R rs with _ | ub <;> rw [hb] at h
        · exact Option.noConfusion h
        · rw [Option.some_bind] at h
          rcases hs1 : pySet c.R rd
              (wrap32 (to_signed32 (ua : Int) * to_signed32 (ub : Int))) with _ | R1 <;>
            rw [hs1] at h
          · exact Option.noConfusion h
          · rw [Option.some_bind] at h
            rcases hs2 : pySet R1 7
                (wrap32 (Int.fdiv (to_signed32 (ua : Int) * to_signed32 (ub : Int))
                  4294967296)) with _ | R2 <;>
              rw [hs2] at h
            · exact Option.noConfusion h
            · rw [Option.map_some'] at h
              injection h with h'
              subst h'
              exact pySet_mem_bound hs2 (wrap32_lt _)
                (pySet_mem_bound hs1 (wrap32_lt _) hR)
  | div rd rs =>
    rcases h : CPU.DIV c rd rs with _ | c'
    · show ∀ w ∈ ((CPU.DIV c rd rs).getD c).R, w < 4294967296
      rw [h]
      exact hR
    · show ∀ w ∈ ((CPU.DIV c rd rs).getD c).R, w < 4294967296
      rw [h]
      unfold CPU.DIV at h
      rcases hu : pyGet c.R rd with _ | ud <;> rw [hu] at h
      · exact Option.noConfusion h
      · rw [Option.some_bind] at h
        rcases hv : pyGet c.R rs with _ | uv <;> rw [hv] at h
        · exact Option.noConfusion h
        · rw [Option.some_bind] at h
          by_cases hz : to_signed32 (uv : Int) = 0
          · rw [if_pos hz] at h
            injection h with h'
            subst h'
            exact hR
          · rw [if_neg hz] at h
            rcases hs1 : pySet c.R rd
                (wrap32 (Int.tdiv (to_signed32 (ud : Int)) (to_signed32 (uv : Int)))) with _ | R1 <;>
              rw [hs1] at h
            · exact Option.noConfusion h
            · rw [Option.some_bind] at h
              rcases hs2 : pySet R1 7
                  (wrap32 (Int.fmod (to_signed32 (ud : Int)) (to_signed32 (uv : Int)))) with _ | R2 <;>
                rw [hs2] at h
              · exact Option.noConfusion h
              · rw [Option.map_some'] at h
                injection h with h'
                subst h'
                exact pySet_mem_bound hs2 (wrap32_lt _)
                  (pySet_mem_bound hs1 (wrap32_lt _) hR)


/-- C6: starting from the initial engine state (all 8 registers zero),
after any finite sequence of MOV, ADD, SUB, MUL, DIV operations every
stored register value lies in `0 .. 2^32 - 1`: every write goes through
`wrap32` (a skipped or faulted operation leaves the state unchanged). -/
theorem registers_always_32bit (ops : List Op) :
    ∀ v ∈ (runProgram ops).R, v < 4294967296 := by
  have main : ∀ (l : List Op) (c : CPU), (∀ w ∈ c.R, w < 4294967296) →
      ∀ w ∈ (List.foldl CPU.step c l).R, w < 4294967296 := by
    intro l
    induction l with
    | nil => intro c hc; simpa using hc
    | cons op l ih =>
      intro c hc
      rw [List.foldl_cons]
      exact ih _ (step_bound c op hc)
  exact main ops CPU.initial (by decide)


/-- Witness for C6: after `MOV(1, 5)` the value 5 is in the register file
and within range. -/
theorem registers_always_32bit_witness :
    5 ∈ (runProgram [Op.mov 1 5]).R ∧ (5 : Nat) < 4294967296 :=
  ⟨by decide, registers_always_32bit [Op.mov 1 5] 5 (by decide)⟩


/-! ### Decoder lemmas -/

/-- Any line whose execution ends in the per-line error handler leaves the
engine state exactly as it was (parse failures happen before the engine
call; a faulting engine call mutates nothing, see the module comment). -/
theorem exec_errored_frame :
    ∀ (cpu : CPU) (parts : List (List Char)),
      (execute_instruction_parts cpu parts).outcome = LineOutcome.errored →
      (execute_instruction_parts cpu parts).cpu = cpu := by
  intro cpu parts
  cases parts with
  | nil => intro h; exact LineOutcome.noConfusion h
  | cons p0 rest =>
    unfold execute_instruction_parts opMOV opADD opSUB opMUL opDIV engineStep parseFail
    repeat' split
    all_goals intro h
    all_goals first
      | rfl
      | exact LineOutcome.noConfusion h

theorem engineStep_invoked (cpu : CPU) (r : Option CPU) :
    (engineStep cpu r).invoked = true := by
  cases r <;> rfl


/-- The line `MOV r9, 5` on any 8-register state: the decoder resolves
`r9` to index 9 and invokes the engine; the out-of-bounds write raises,
the per-line handler catches it, and the state is unchanged. -/
theorem mov_r9_line (cpu : CPU) (h8 : cpu.R.length = 8) :
    execute_instruction_parts cpu ["MOV".toList, "r9,".toList, "5".toList] =
      { cpu := cpu, outcome := LineOutcome.errored, invoked := true } := by
  have h1 : execute_instruction_parts cpu ["MOV".toList, "r9,".toList, "5".toList] =
      engineStep cpu (CPU.MOV cpu 9 5) := rfl
  have h3 : pySet cpu.R 9 (wrap32 5) = none := by
    unfold pySet
    rw [if_pos (by norm_num : (0 : Int) ≤ 9),
      if_neg (show ¬ ((9 : Int) < (cpu.R.length : Int)) by rw [h8]; norm_num)]
  have h2 : CPU.MOV cpu 9 5 = none := by
    unfold CPU.MOV
    rw [h3]
    rfl
  rw [h1, h2]
  rfl

theorem opADD_two (cpu : CPU) (p0 t1 t2 : List Char) :
    opADD cpu [p0, t1, t2] = parseFail cpu := by
  unfold opADD
  have e1 : (([p0, t1, t2][1]?).bind fun t => parse_operand (stripCommas t)) =
      parse_operand (stripCommas t1) := rfl
  rw [e1]
  rcases hp1 : parse_operand (stripCommas t1) with _ | ⟨rd, b1⟩
  · rfl
  · have e2 : (([p0, t1, t2][2]?).bind fun t => parse_operand (stripCommas t)) =
        parse_operand (stripCommas t2) := rfl
    rw [e2]
    rcases hp2 : parse_operand (stripCommas t2) with _ | ⟨rs, b2⟩
    · rfl
    · rfl

theorem opSUB_two (cpu : CPU) (p0 t1 t2 : List Char) :
    opSUB cpu [p0, t1, t2] = parseFail cpu := by
  unfold opSUB
  have e1 : (([p0, t1, t2][1]?).bind fun t => parse_operand (stripCommas t)) =
      parse_operand (stripCommas t1) := rfl
  rw [e1]
  rcases hp1 : parse_operand (stripCommas t1) with _ | ⟨rd, b1⟩
  · rfl
  · have e2 : (([p0, t1, t2][2]?).bind fun t => parse_operand (stripCommas t)) =
        parse_operand (stripCommas t2) := rfl
    rw [e2]
    rcases hp2 : parse_operand (stripCommas t2) with _ | ⟨rs, b2⟩
    · rfl
    · rfl

theorem opADD_three (cpu : CPU) (p0 t1 t2 t3 : List Char) (rd rs imm : Int)
    (b1 b2 b3 : Bool)
    (h1 : parse_operand (stripCommas t1) = some (rd, b1))
    (h2 : parse_operand (stripCommas t2) = some (rs, b2))
    (h3 : parse_operand t3 = some (imm, b3)) :
    opADD cpu [p0, t1, t2, t3] = engineStep cpu (CPU.ADD cpu rd rs imm) := by
  unfold opADD
  have e1 : (([p0, t1, t2, t3][1]?).bind fun t => parse_operand (stripCommas t)) =
      parse_operand (stripCommas t1) := rfl
  have e2 : (([p0, t1, t2, t3][2]?).bind fun t => parse_operand (stripCommas t)) =
      parse_operand (stripCommas t2) := rfl
  have e3 : (([p0, t1, t2, t3][3]?).bind parse_operand) = parse_operand t3 := rfl
  rw [e1, h1, e2, h2, e3, h3]

theorem opSUB_three (cpu : CPU) (p0 t1 t2 t3 : List Char) (rd rs imm : Int)
    (b1 b2 b3 : Bool)
    (h1 : parse_operand (stripCommas t1) = some (rd, b1))
    (h2 : parse_operand (stripCommas t2) = some (rs, b2))
    (h3 : parse_operand t3 = some (imm, b3)) :
    opSUB cpu [p0, t1, t2, t3] = engineStep cpu (CPU.SUB cpu rd rs imm) := by
  unfold opSUB
  have e1 : (([p0, t1, t2, t3][1]?).bind fun t => parse_operand (stripCommas t)) =
      parse_operand (stripCommas t1) := rfl
  have e2 : (([p0, t1, t2, t3][2]?).bind fun t => parse_operand (stripCommas t)) =
      parse_operand (stripCommas t2) := rfl
  have e3 : (([p0, t1, t2, t3][3]?).bind parse_operand) = parse_operand t3 := rfl
  rw [e1, h1, e2, h2, e3, h3]

theorem exec_dispatch_ADD (cpu : CPU) (p0 : List Char) (rest : List (List Char))
    (hc : isCommentStart p0 = false) (hop : p0.map Char.toUpper = "ADD".toList) :
    execute_instruction_parts cpu (p0 :: rest) = opADD cpu (p0 :: rest) := by
  simp only [execute_instruction_parts]
  rw [hc, hop]
  rw [if_neg (by decide), if_neg (by decide), if_pos rfl]

theorem exec_dispatch_SUB (cpu : CPU) (p0 : List Char) (rest : List (List Char))
    (hc : isCommentStart p0 = false) (hop : p0.map Char.toUpper = "SUB".toList) :
    execute_instruction_parts cpu (p0 :: rest) = opSUB cpu (p0 :: rest) := by
  simp only [execute_instruction_parts]
  rw [hc, hop]
  rw [if_neg (by decide), if_neg (by decide), if_neg (by decide), if_pos rfl]


/-! ### C8: out-of-range register operands -/

/-- C8 counterexample: on the line `MOV r9, 5` the decoder does NOT reject
the out-of-range register token — `parse_operand` happily returns index 9
and the engine operation is invoked (`invoked = true`); the error the user
sees is the engine's out-of-bounds `IndexError` caught by the per-line
handler, not a decode-time rejection. -/
theorem decode_r9_reaches_engine :
    execute_instruction CPU.initial ("MOV r9, 5".toList) =
      { cpu := CPU.initial, outcome := LineOutcome.errored, invoked := true } ∧
    parse_operand ("r9".toList) = some (9, true) := by
  decide

/-- C8 amended: a line with an out-of-range register operand (e.g. `r9`)
is not rejected by the decoder; the engine operation is invoked and its
out-of-bounds register access raises an error that the per-line handler
catches, so no engine register or counter is mutated for that line — as
for every line that ends in the per-line error handler. -/
theorem out_of_range_register_line :
    (∀ (cpu : CPU) (parts : List (List Char)), cpu.R.length = 8 →
       (execute_instruction_parts cpu parts).outcome = LineOutcome.errored →
       (execute_instruction_parts cpu parts).cpu = cpu) ∧
    (∀ cpu : CPU, cpu.R.length = 8 →
       execute_instruction_parts cpu ["MOV".toList, "r9,".toList, "5".toList] =
         { cpu := cpu, outcome := LineOutcome.errored, invoked := true }) :=
  ⟨fun cpu parts _ => exec_errored_frame cpu parts, fun cpu h8 => mov_r9_line cpu h8⟩

/-- Witness for C8 on the fresh engine. -/
theorem out_of_range_register_line_witness :
    (CPU.initial.R.length = 8) ∧
    execute_instruction_parts CPU.initial ["MOV".toList, "r9,".toList, "5".toList] =
      { cpu := CPU.initial, outcome := LineOutcome.errored, invoked := true } :=
  ⟨by decide, out_of_range_register_line.2 CPU.initial (by decide)⟩

/-! ### C9: ADD/SUB operand forms -/

/-- C9 counterexample: the two-operand form is NOT accepted.  The line
`ADD r1, 5` fails with a per-line error (`parts[3]` raises `IndexError`
before the engine is reached): the outcome is `errored` with
`invoked = false` and the state unchanged, refuting the claim that the
2-operand form executes the engine operation with `rs = rd`. -/
theorem two_operand_add_rejected :
    execute_instruction CPU.initial ("ADD r1, 5".toList) =
      { cpu := CPU.initial, outcome := LineOutcome.errored, invoked := false } := by
  decide

/-- C9 amended: the decoder accepts ADD and SUB only in the 3-operand form
`rd, rs, value`.  Every 2-operand ADD/SUB line raises a missing-operand
error handled per-line, with no engine operation invoked and no state
change; every ADD/SUB line whose three operand tokens parse executes the
corresponding engine operation. -/
theorem add_sub_operand_forms :
    (∀ (cpu : CPU) (p0 t1 t2 : List Char), isCommentStart p0 = false →
       (p0.map Char.toUpper = "ADD".toList ∨ p0.map Char.toUpper = "SUB".toList) →
       execute_instruction_parts cpu [p0, t1, t2] =
         { cpu := cpu, outcome := LineOutcome.errored, invoked := false }) ∧
    (∀ (cpu : CPU) (p0 t1 t2 t3 : List Char) (rd rs imm : Int) (b1 b2 b3 : Bool),
       isCommentStart p0 = false →
       parse_operand (stripCommas t1) = some (rd, b1) →
       parse_operand (stripCommas t2) = some (rs, b2) →
       parse_operand t3 = some (imm, b3) →
       (p0.map Char.toUpper = "ADD".toList →
         execute_instruction_parts cpu [p0, t1, t2, t3] =
           engineStep cpu (CPU.ADD cpu rd rs imm) ∧
         (execute_instruction_parts cpu [p0, t1, t2, t3]).invoked = true) ∧
       (p0.map Char.toUpper = "SUB".toList →
         execute_instruction_parts cpu [p0, t1, t2, t3] =
           engineStep cpu (CPU.SUB cpu rd rs imm) ∧
         (execute_instruction_parts cpu [p0, t1, t2, t3]).invoked = true)) := by
  constructor
  · intro cpu p0 t1 t2 hc hop
    rcases hop with hop | hop
    · rw [exec_dispatch_ADD cpu p0 [t1, t2] hc hop, opADD_two]
      rfl
    · rw [exec_dispatch_SUB cpu p0 [t1, t2] hc hop, opSUB_two]
      rfl
  · intro cpu p0 t1 t2 t3 rd rs imm b1 b2 b3 hc h1 h2 h3
    constructor
    · intro hop
      constructor
      · rw [exec_dispatch_ADD cpu p0 [t1, t2, t3] hc hop,
          opADD_three cpu p0 t1 t2 t3 rd rs imm b1 b2 b3 h1 h2 h3]
      · rw [exec_dispatch_ADD cpu p0 [t1, t2, t3] hc hop,
          opADD_three cpu p0 t1 t2 t3 rd rs imm b1 b2 b3 h1 h2 h3]
        exact engineStep_invoked cpu _
    · intro hop
      constructor
      · rw [exec_dispatch_SUB cpu p0 [t1, t2, t3] hc hop,
          opSUB_three cpu p0 t1 t2 t3 rd rs imm b1 b2 b3 h1 h2 h3]
      · rw [exec_dispatch_SUB cpu p0 [t1, t2, t3] hc hop,
          opSUB_three cpu p0 t1 t2 t3 rd rs imm b1 b2 b3 h1 h2 h3]
        exact engineStep_invoked cpu _


/-- Witness for C9: `ADD r1, r2, 5` (as tokens) executes the engine ADD on
the fresh engine. -/
theorem add_sub_operand_forms_witness :
    (isCommentStart ("ADD".toList) = false ∧
      parse_operand (stripCommas ("r1,".toList)) = some (1, true) ∧
      parse_operand (stripCommas ("r2".toList)) = some (2, true) ∧
      parse_operand ("5".toList) = some (5, false)) ∧
    (execute_instruction_parts CPU.initial
        ["ADD".toList, "r1,".toList, "r2".toList, "5".toList] =
      engineStep CPU.initial (CPU.ADD CPU.initial 1 2 5) ∧
    (execute_instruction_parts CPU.initial
        ["ADD".toList, "r1,".toList, "r2".toList, "5".toList]).invoked = true) :=
  ⟨⟨by decide, by decide, by decide, by decide⟩,
    (add_sub_operand_forms.2 CPU.initial "ADD".toList "r1,".toList "r2".toList
        "5".toList 1 2 5 true true false (by decide) (by decide) (by decide)
        (by decide)).1 (by decide)⟩
